import Mathlib

/-!
Shallow embedding of the quiz-game session engine (`src/main.go`).

Conventions of the embedding:
* Go `time.Duration` values are `Int` nanoseconds; `second` is `time.Second`.
* Go `int` is `Int` (no arithmetic here comes near 64-bit overflow).
* `math/rand` is modelled by an infinite stream of non-negative draws
  (`Rng := Nat → Nat`); `rand.Intn n` takes the head modulo `n` and advances
  the stream, `rand.Int` takes the head modulo `2^63`.  This captures exactly
  the guarantees the code relies on: `Intn n ∈ [0, n)`, `Int ≥ 0`.
* The Go `map[string]struct{}` used-id set is a `Finset String`.
* The unbounded retry loop in `generateQuestion` is given explicit fuel and
  returns `none` when the fuel is exhausted.
-/

namespace QuizGame

/-- Model of the `math/rand` generator: an infinite stream of draws. -/
def Rng : Type := Nat → Nat

/-- Advance the stream by one draw. -/
def Rng.next (r : Rng) : Rng := fun i => r (i + 1)

/-- `rand.Intn n`: a value in `[0, n)` (for `n > 0`), plus the advanced stream. -/
def intn (n : Nat) (r : Rng) : Int × Rng := ((r 0 % n : Nat), r.next)

/-- `rand.Int`: a non-negative int63 draw, plus the advanced stream. -/
def randInt (r : Rng) : Nat × Rng := (r 0 % 2 ^ 63, r.next)

/-- `Question` struct (`src/main.go` lines 36-41). -/
structure Question where
  Text : String
  Answer : Int
  OpType : String
  UniqueID : String
deriving DecidableEq

/-- `AnswerRecord` struct (`src/main.go` lines 43-48); `Duration` in ns. -/
structure AnswerRecord where
  Question : Question
  Correct : Bool
  Duration : Int
  UserInput : String
deriving DecidableEq

/-- `fmt.Sprintf("%d %s %d = ?", a, op, b)` as used for arithmetic questions. -/
def qText (a : Int) (op : String) (b : Int) : String :=
  toString a ++ " " ++ op ++ " " ++ toString b ++ " = ?"

/--
One iteration of the question body generation in `generateQuestion`
(`src/main.go` lines 439-561): the `switch difficulty` statement.  Returns
`(text, answer, opType)` together with the advanced rng stream.
-/
def genBody (difficulty : String) (r : Rng) : (String × Int × String) × Rng :=
  if difficulty = "1st Grade" then
    let (a, r) := intn 11 r
    let (b, r) := intn 11 r
    let (c, r) := intn 2 r
    if c = 0 then
      ((qText a "+" b, a + b, "addition"), r)
    else
      -- prevent negative: swap when a < b
      let (a, b) := if a < b then (b, a) else (a, b)
      ((qText a "-" b, a - b, "subtraction"), r)
  else if difficulty = "3rd Grade" then
    let (a, r) := intn 21 r
    let (b, r) := intn 21 r
    let (i, r) := intn 3 r
    if i = 0 then
      ((qText a "+" b, a + b, "addition"), r)
    else if i = 1 then
      ((qText a "-" b, a - b, "subtraction"), r)
    else
      -- single-digit multiplication only: re-roll both operands
      let (a, r) := intn 10 r
      let (b, r) := intn 10 r
      ((qText a "*" b, a * b, "multiplication"), r)
  else if difficulty = "5th Grade" then
    let (i, r) := intn 4 r
    if i = 0 then
      let (a, r) := intn 90 r
      let (b, r) := intn 90 r
      ((qText (a + 10) "+" (b + 10), (a + 10) + (b + 10), "addition"), r)
    else if i = 1 then
      let (a, r) := intn 90 r
      let (b, r) := intn 90 r
      ((qText (a + 10) "-" (b + 10), (a + 10) - (b + 10), "subtraction"), r)
    else if i = 2 then
      let (a, r) := intn 15 r
      let (b, r) := intn 15 r
      ((qText (a + 1) "*" (b + 1), (a + 1) * (b + 1), "multiplication"), r)
    else
      -- divisor max 15, dividend = divisor * quotient, always whole
      let (b, r) := intn 15 r
      let (ans, r) := intn 20 r
      ((qText ((b + 1) * (ans + 1)) "/" (b + 1), ans + 1, "division"), r)
  else if difficulty = "Algebra" then
    let (f, r) := intn 7 r
    if f = 0 then
      let (x0, r) := intn 41 r
      let x := x0 - 20
      let (n0, r) := intn 10 r
      let n := n0 + 1
      (("x + " ++ toString n ++ " = " ++ toString (x + n) ++ ". What is x?",
        x, "algebra_addition"), r)
    else if f = 1 then
      let (x0, r) := intn 41 r
      let x := x0 - 20
      let (n0, r) := intn 5 r
      let n := n0 + 1
      (("x - " ++ toString n ++ " = " ++ toString (x - n) ++ ". What is x?",
        x, "algebra_subtraction"), r)
    else if f = 2 then
      let (x0, r) := intn 41 r
      let x := x0 - 20
      let (n0, r) := intn 10 r
      let n := n0 + 1
      ((toString n ++ " + x = " ++ toString (x + n) ++ ". What is x?",
        x, "algebra_addition"), r)
    else if f = 3 then
      let (x0, r) := intn 41 r
      let x := x0 - 20
      let (n0, r) := intn 10 r
      let n := n0 + x
      ((toString n ++ " - x = " ++ toString (n - x) ++ ". What is x?",
        x, "algebra_subtraction"), r)
    else if f = 4 then
      let (x0, r) := intn 41 r
      let x := x0 - 20
      let (n0, r) := intn 6 r
      let n := n0 + 1
      (("x * " ++ toString n ++ " = " ++ toString (x * n) ++ ". What is x?",
        x, "algebra_multiplication"), r)
    else if f = 5 then
      let (n0, r) := intn 5 r
      let n := n0 + 1
      let (m0, r) := intn 21 r
      let m1 := m0 - 10
      let m := if m1 = 0 then 1 else m1
      (("x ÷ " ++ toString n ++ " = " ++ toString m ++ ". What is x?",
        n * m, "algebra_division"), r)
    else
      let (x0, r) := intn 41 r
      let x := x0 - 20
      let (n0, r) := intn 6 r
      let n := n0 + 1
      ((toString n ++ " * x = " ++ toString (x * n) ++ ". What is x?",
        x, "algebra_multiplication"), r)
  else
    -- fallback: simple addition
    let (a, r) := intn 11 r
    let (b, r) := intn 11 r
    ((qText a "+" b, a + b, "addition"), r)

/--
The retry loop of `generateQuestion` (`src/main.go` lines 431-579) with
explicit fuel: regenerate the question body and a fresh id until the id is
not in the used set; register the id; return question, updated set and rng.
-/
def generateQuestionAux : Nat → String → Finset String → Rng →
    Option (Question × Finset String × Rng)
  | 0, _, _, _ => none
  | fuel + 1, difficulty, used, r =>
    let ((text, answer, opType), r1) := genBody difficulty r
    let (v, r2) := randInt r1
    let id := difficulty ++ "|" ++ toString v
    if id ∈ used then
      generateQuestionAux fuel difficulty used r2
    else
      some ({ Text := text, Answer := answer, OpType := opType, UniqueID := id },
            insert id used, r2)

/-- `generateQuestion(difficulty, used)`: the question and the updated set. -/
def generateQuestion (fuel : Nat) (difficulty : String) (used : Finset String)
    (r : Rng) : Option (Question × Finset String) :=
  (generateQuestionAux fuel difficulty used r).map (fun p => (p.1, p.2.1))

/-- Value of a (non-empty) digit string, most significant digit first. -/
def digitsToNat (cs : List Char) : Nat :=
  cs.foldl (fun acc c => acc * 10 + (c.toNat - 48)) 0

/--
Model of `fmt.Sscanf(userInput, "%d", &userAns)` (`src/main.go` line 244):
skip leading whitespace, optional sign, then at least one decimal digit;
trailing characters are ignored (`Sscanf` does not require full consumption).
Returns `none` exactly when scanning fails (`err != nil` in Go).
-/
def scanInt (s : String) : Option Int :=
  let cs := s.data.dropWhile Char.isWhitespace
  let signAndRest : Bool × List Char :=
    match cs with
    | '-' :: rest => (true, rest)
    | '+' :: rest => (false, rest)
    | _ => (false, cs)
  let ds := signAndRest.2.takeWhile Char.isDigit
  if ds.isEmpty then none
  else if signAndRest.1 then some (-(digitsToNat ds : Int))
  else some (digitsToNat ds : Int)

/-- `time.Second` in nanoseconds. -/
def second : Int := 1000000000

/-- `appState` (`src/main.go` lines 16-22). -/
inductive AppState where
  | menu
  | timeSelect
  | running
  | results
deriving DecidableEq

/--
Model of the external single-line text-input collaborator
(`textinput.Model`): the spec treats it as "a text-capture capability that
yields the current typed string and can be cleared/focused/blurred".  Only
the current value and the focus flag are relevant to the engine.
-/
structure TextInput where
  value : String
  focused : Bool
deriving DecidableEq

/-- The `model` struct (`src/main.go` lines 50-77).  The two list widgets
are external collaborators reduced to their cursor index; times are `Int`
nanosecond instants supplied by the environment in place of `time.Now()`. -/
structure Model where
  state : AppState
  difficulty : String
  timeLimit : Int
  listIndex : Nat
  timeListIndex : Nat
  textInput : TextInput
  currentQ : Question
  usedQuestions : Finset String
  answers : List AnswerRecord
  startTime : Int
  totalStart : Int
  questionStart : Int
  timeRemaining : Int
  timerActive : Bool
  suspendTick : Bool
  flashText : String
  flashColor : String
  flashActive : Bool
  flashBarAdjust : Int
  flashFadeSteps : Int
  flashColorOverride : String
  fuseFrameIndex : Nat
  fuseFrames : List String
deriving DecidableEq

/-- Difficulty menu items (`src/main.go` lines 80-85): `(name, desc)`. -/
def diffItems : List (String × String) :=
  [("1st Grade", "Basic single-digit addition and subtraction"),
   ("3rd Grade", "Larger numbers and simple multiplication"),
   ("5th Grade", "Two-digit operations"),
   ("Algebra", "Variables and expressions")]

/-- Duration menu items (`src/main.go` lines 87-92). -/
def timeItems : List (String × String) :=
  [("30s", "Brain Storm"),
   ("60s", "Normal Person"),
   ("90s", "Ok, Boomer"),
   ("2m", "Marathon")]

/-- `initialModel()` (`src/main.go` lines 79-119). -/
def initialModel : Model :=
  { state := .menu
    difficulty := ""
    timeLimit := 0
    listIndex := 0
    timeListIndex := 0
    textInput := { value := "", focused := true }
    currentQ := { Text := "", Answer := 0, OpType := "", UniqueID := "" }
    usedQuestions := ∅
    answers := []
    startTime := 0
    totalStart := 0
    questionStart := 0
    timeRemaining := 0
    timerActive := false
    suspendTick := false
    flashText := ""
    flashColor := ""
    flashActive := false
    flashBarAdjust := 0
    flashFadeSteps := 0
    flashColorOverride := ""
    fuseFrameIndex := 0
    fuseFrames := ["*", "✨", "·", "✶"] }

/-- The serialized events the `Update` function consumes: the five clock
messages and the key messages the code dispatches on.  `keyChar` stands for
any other printable key, `keyOther` for any remaining key event. -/
inductive Msg where
  | tick
  | fuseTick
  | pulseTick
  | flashDone
  | flashFade
  | keyEnter
  | keyLeft
  | keyUp
  | keyDown
  | keyQ
  | keyChar (c : Char)
  | keyOther
deriving DecidableEq

/-- Cursor movement of the external list collaborator: up/down move the
cursor, clamped to the item range; other events leave it unchanged. -/
def listNav (idx len : Nat) (msg : Msg) : Nat :=
  match msg with
  | .keyUp => idx - 1
  | .keyDown => min (idx + 1) (len - 1)
  | _ => idx

/-- Key handling of the external text-input collaborator while the engine
forwards events to it: a printable key is appended to the value when the
input is focused and under its 5-character limit; everything else leaves
the value unchanged. -/
def textInputUpdate (ti : TextInput) (msg : Msg) : TextInput :=
  match msg with
  | .keyChar c =>
      if ti.focused ∧ ti.value.length < 5 then { ti with value := ti.value.push c }
      else ti
  | .keyQ =>
      if ti.focused ∧ ti.value.length < 5 then { ti with value := ti.value.push 'q' }
      else ti
  | _ => ti

/-- The correct/incorrect time adjustment of the Enter handler
(`src/main.go` lines 253-271): add a second clamped to the limit when
correct, subtract a second clamped to one second when incorrect. -/
def adjustTime (correct : Bool) (remaining : Int) (timeLimit : Int) : Int :=
  if correct then
    let t := remaining + second
    if t > timeLimit * second then timeLimit * second else t
  else
    let t := remaining - second
    if t < second then second else t

/-- `case stateMenu` of `Update` (`src/main.go` lines 127-143). -/
def updateMenu (m : Model) (msg : Msg) : Model :=
  let m1 := { m with listIndex := listNav m.listIndex diffItems.length msg }
  match msg with
  | .keyEnter =>
      { m1 with difficulty := (diffItems.getD m1.listIndex ("", "")).1,
                state := .timeSelect }
  | _ => m1

/-- `case stateTimeSelect` of `Update` (`src/main.go` lines 145-181). -/
def updateTimeSelect (m : Model) (msg : Msg) (now : Int) (r : Rng) (fuel : Nat) :
    Option Model :=
  let m1 := { m with timeListIndex := listNav m.timeListIndex timeItems.length msg }
  match msg with
  | .keyEnter =>
      let name := (timeItems.getD m1.timeListIndex ("", "")).1
      let tl : Int :=
        if name = "30s" then 30
        else if name = "60s" then 60
        else if name = "90s" then 90
        else if name = "2m" then 120
        else m1.timeLimit
      match generateQuestion fuel m1.difficulty m1.usedQuestions r with
      | none => none
      | some (q, used) =>
          some { m1 with timeLimit := tl, currentQ := q, usedQuestions := used,
                         totalStart := now, questionStart := now,
                         timeRemaining := tl * second, state := .running,
                         startTime := now }
  | .keyLeft => some { m1 with state := .menu }
  | _ => some m1

/-- `case stateRunning` of `Update` (`src/main.go` lines 183-292). -/
def updateRunning (m : Model) (msg : Msg) (now : Int) (r : Rng) (fuel : Nat) :
    Option Model :=
  match msg with
  | .tick =>
      let t := if m.suspendTick then m.timeRemaining else m.timeRemaining - second
      if t ≤ 0 then some { m with timeRemaining := t, state := .results }
      else some { m with timeRemaining := t }
  | .fuseTick =>
      some { m with fuseFrameIndex := (m.fuseFrameIndex + 1) % m.fuseFrames.length }
  | .pulseTick =>
      if m.timeRemaining ≤ 10 * second then
        some { m with flashFadeSteps := 1,
                      flashColorOverride :=
                        if m.flashColorOverride = "" then "brightRed" else "" }
      else some m
  | _ =>
      let m1 := { m with textInput := textInputUpdate m.textInput msg }
      match msg with
      | .flashDone =>
          match generateQuestion fuel m1.difficulty m1.usedQuestions r with
          | none => none
          | some (q, used) =>
              some { m1 with flashActive := false, flashColorOverride := "",
                             flashBarAdjust := 0,
                             textInput := { value := "", focused := true },
                             currentQ := q, usedQuestions := used,
                             suspendTick := false, questionStart := now }
      | .flashFade =>
          if m1.flashFadeSteps > 0 then
            if m1.flashFadeSteps - 1 = 0 then
              some { m1 with flashFadeSteps := 0, flashColorOverride := "" }
            else
              some { m1 with flashFadeSteps := m1.flashFadeSteps - 1 }
          else some m1
      | .keyEnter =>
          match scanInt m1.textInput.value with
          | none => some m1
          | some v =>
              let correct : Bool := v = m1.currentQ.Answer
              let m2 := { m1 with
                answers := m1.answers ++
                  [({ Question := m1.currentQ, Correct := correct,
                      Duration := now - m1.questionStart,
                      UserInput := m1.textInput.value } : AnswerRecord)] }
              let m3 :=
                if correct then
                  { m2 with flashText := "Correct!", flashColor := "green",
                            flashBarAdjust := 1, flashColorOverride := "brightGreen",
                            timeRemaining := adjustTime true m2.timeRemaining m2.timeLimit }
                else
                  { m2 with flashText := "Incorrect!", flashColor := "red",
                            flashBarAdjust := -1, flashColorOverride := "brightRed",
                            timeRemaining := adjustTime false m2.timeRemaining m2.timeLimit }
              some { m3 with flashFadeSteps := 3, suspendTick := true,
                             flashActive := true,
                             textInput := { m3.textInput with focused := false } }
      | .keyQ =>
          some { m1 with state := .menu, listIndex := 0, timeListIndex := 0,
                         textInput := { m1.textInput with value := "" },
                         usedQuestions := ∅, answers := [] }
      | _ => some m1

/-- `case stateResults` of `Update` (`src/main.go` lines 294-305). -/
def updateResults (m : Model) (msg : Msg) : Model :=
  match msg with
  | .keyLeft =>
      { m with state := .menu, listIndex := 0, timeListIndex := 0,
               textInput := { m.textInput with value := "" },
               answers := [], usedQuestions := ∅ }
  | _ => m

/-- `Update` (`src/main.go` lines 125-310): dispatch on the current phase.
`now` stands for `time.Now()`; `r` and `fuel` feed `generateQuestion`;
`none` means a question-generation call ran out of fuel. -/
def update (m : Model) (msg : Msg) (now : Int) (r : Rng) (fuel : Nat) :
    Option Model :=
  match m.state with
  | .menu => some (updateMenu m msg)
  | .timeSelect => updateTimeSelect m msg now r fuel
  | .running => updateRunning m msg now r fuel
  | .results => some (updateResults m msg)

/-- One character cell of the countdown bar row. -/
inductive BarCell where
  | fuse (glyph : String)
  | block
  | space
deriving DecidableEq

/-- Result of `renderCountdownBar`: either the fixed time-up token or a
bar with its selected color token and its row of cells. -/
inductive BarRender where
  | timesUp
  | bar (color : String) (cells : List BarCell)
deriving DecidableEq

/-- The filled-column computation of `renderCountdownBar` (`src/main.go`
lines 636-644): `int(percent * float64(width)) + adjust` clamped to
`[0, width]`.  The float64 quotient is modelled exactly: for the positive
arguments in scope, Go truncation toward zero is the floor
`timeRemaining * width / totalTime`. -/
def filledColumns (timeRemaining totalTime width adjust : Int) : Int :=
  let filled := timeRemaining * width / totalTime + adjust
  let filled1 := if filled > width then width else filled
  if filled1 < 0 then 0 else filled1

/-- Color selection of `renderCountdownBar` (`src/main.go` lines 646-664),
with percent compared exactly (`percent > 0.5` as `2*t > total`,
`percent > 0.2` as `5*t > total`).  An override that is neither known name
leaves the zero-value style, reported here as `"none"`. -/
def barColorName (timeRemaining totalTime : Int) (flashColorOverride : String) :
    String :=
  if flashColorOverride ≠ "" then
    if flashColorOverride = "brightGreen" then "brightGreen"
    else if flashColorOverride = "brightRed" then "brightRed"
    else "none"
  else if 2 * timeRemaining > totalTime then "green"
  else if 5 * timeRemaining > totalTime then "yellow"
  else "red"

/-- `renderCountdownBar` (`src/main.go` lines 630-679): the fixed time-up
token when no time remains, otherwise a row of exactly `width` cells where
column `filled - 1` carries the fuse glyph, columns below `filled` are
solid blocks and the rest are spaces. -/
def renderCountdownBar (timeRemaining totalTime width adjust : Int)
    (flashColorOverride fuseChar : String) : BarRender :=
  if timeRemaining ≤ 0 then .timesUp
  else
    let filled := filledColumns timeRemaining totalTime width adjust
    .bar (barColorName timeRemaining totalTime flashColorOverride)
      ((List.range width.toNat).map (fun (i : Nat) =>
        if (i : Int) = filled - 1 then .fuse fuseChar
        else if (i : Int) < filled then .block
        else .space))

/-- The states the event loop can reach from `initialModel`. -/
inductive Reachable : Model → Prop where
  | init : Reachable initialModel
  | step {m : Model} {msg : Msg} {now : Int} {r : Rng} {fuel : Nat} {m' : Model} :
      Reachable m → update m msg now r fuel = some m' → Reachable m'

/-! ### Concrete values used by witnesses and counterexamples -/

/-- The all-zero random stream. -/
def zeroRng : Rng := fun _ => 0

/-- A stream driving the Algebra branch into the division template with
divisor 5 and quotient 10. -/
def cexRng : Rng := fun i => [5, 4, 20, 0].getD i 0

/-- A stream driving the 5th Grade branch into the division operator. -/
def divRng : Rng := fun i => [3, 0, 0, 0].getD i 0

/-- A stream driving the 1st Grade branch into the subtraction operator. -/
def subRng : Rng := fun i => [0, 0, 1, 0].getD i 0

/-- The question generated for "1st Grade" from the all-zero stream. -/
def q0 : Question :=
  { Text := "0 + 0 = ?", Answer := 0, OpType := "addition", UniqueID := "1st Grade|0" }

/-- The question generated for "Algebra" from `cexRng`. -/
def qAlg : Question :=
  { Text := "x ÷ 5 = 10. What is x?", Answer := 50, OpType := "algebra_division",
    UniqueID := "Algebra|0" }

/-- The question generated for "5th Grade" from `divRng`. -/
def qDiv : Question :=
  { Text := "1 / 1 = ?", Answer := 1, OpType := "division", UniqueID := "5th Grade|0" }

/-- The question generated for "1st Grade" from `subRng`. -/
def qSub : Question :=
  { Text := "0 - 0 = ?", Answer := 0, OpType := "subtraction", UniqueID := "1st Grade|0" }

/-- The model after confirming "1st Grade" in the menu. -/
def mTS : Model := { initialModel with difficulty := "1st Grade", state := .timeSelect }

/-- The model after additionally confirming "30s" in the duration list,
with questions drawn from `zeroRng`. -/
def mRun : Model :=
  { mTS with timeLimit := 30, currentQ := q0,
             usedQuestions := {"1st Grade|0"},
             totalStart := 0, questionStart := 0,
             timeRemaining := 30 * second, state := .running, startTime := 0 }

/-- A running model in the final ten seconds with a fade in progress. -/
def mPulse : Model :=
  { initialModel with state := .running, timeLimit := 30,
                      timeRemaining := 5 * second, flashFadeSteps := 3 }

/-- A running model mid-flash: an answer was just scored, the tick clock is
suspended and the text input is blurred but still holds the typed text. -/
def mFlash : Model :=
  { mPulse with textInput := { value := "7", focused := false },
                flashActive := true, suspendTick := true,
                currentQ := q0, usedQuestions := {"1st Grade|0"} }

/-! ### Helper lemmas -/

/-- `update` in the `Menu` phase runs the menu handler. -/
theorem update_menu_eq (m : Model) (msg : Msg) (now : Int) (r : Rng) (fuel : Nat)
    (h : m.state = .menu) :
    update m msg now r fuel = some (updateMenu m msg) := by
  simp only [update]
  rw [h]

/-- `update` in the `TimeSelect` phase runs the duration-select handler. -/
theorem update_timeSelect_eq (m : Model) (msg : Msg) (now : Int) (r : Rng) (fuel : Nat)
    (h : m.state = .timeSelect) :
    update m msg now r fuel = updateTimeSelect m msg now r fuel := by
  simp only [update]
  rw [h]

/-- `update` in the `Running` phase runs the running handler. -/
theorem update_running_eq (m : Model) (msg : Msg) (now : Int) (r : Rng) (fuel : Nat)
    (h : m.state = .running) :
    update m msg now r fuel = updateRunning m msg now r fuel := by
  simp only [update]
  rw [h]

/-- `update` in the `Results` phase runs the results handler. -/
theorem update_results_eq (m : Model) (msg : Msg) (now : Int) (r : Rng) (fuel : Nat)
    (h : m.state = .results) :
    update m msg now r fuel = some (updateResults m msg) := by
  simp only [update]
  rw [h]

/-- Any successful run of the retry loop returns an id that was fresh,
registers exactly that id, and a question body produced by `genBody`. -/
theorem generateQuestionAux_spec {fuel : Nat} {d : String} {used : Finset String}
    {r r' : Rng} {q : Question} {used' : Finset String}
    (h : generateQuestionAux fuel d used r = some (q, used', r')) :
    q.UniqueID ∉ used ∧ used' = insert q.UniqueID used ∧
    ∃ r0 : Rng, ((genBody d r0).1).1 = q.Text ∧ ((genBody d r0).1).2.1 = q.Answer ∧
      ((genBody d r0).1).2.2 = q.OpType := by
  induction fuel generalizing r with
  | zero => simp [generateQuestionAux] at h
  | succ n ih =>
    rw [generateQuestionAux] at h
    rcases hgb : genBody d r with ⟨⟨t, a, o⟩, r1⟩
    rw [hgb] at h
    dsimp only [randInt] at h
    by_cases hmem : (d ++ "|" ++ toString (r1 0 % 2 ^ 63)) ∈ used
    · rw [if_pos hmem] at h
      exact ih h
    · rw [if_neg hmem] at h
      simp only [Option.some.injEq, Prod.mk.injEq] at h
      obtain ⟨hq, hu, hr⟩ := h
      subst hq hu
      refine ⟨hmem, rfl, r, ?_, ?_, ?_⟩ <;> rw [hgb]

/-- `generateQuestionAux_spec` lifted through the rng-dropping wrapper. -/
theorem generateQuestion_spec {fuel : Nat} {d : String} {used : Finset String}
    {r : Rng} {q : Question} {used' : Finset String}
    (h : generateQuestion fuel d used r = some (q, used')) :
    q.UniqueID ∉ used ∧ used' = insert q.UniqueID used ∧
    ∃ r0 : Rng, ((genBody d r0).1).1 = q.Text ∧ ((genBody d r0).1).2.1 = q.Answer ∧
      ((genBody d r0).1).2.2 = q.OpType := by
  rcases hg : generateQuestionAux fuel d used r with _ | ⟨q1, used1, r1⟩ <;>
    simp only [generateQuestion, hg, Option.some.injEq, Option.map] at h
  · exact absurd h (by simp)
  · simp only [Prod.mk.injEq] at h
    obtain ⟨hq, hu⟩ := h
    subst hq
    subst hu
    exact generateQuestionAux_spec hg

/-- A 1st Grade subtraction body never has a negative answer. -/
theorem genBody_first_sub_nonneg (r : Rng)
    (hop : ((genBody "1st Grade" r).1).2.2 = "subtraction") :
    0 ≤ ((genBody "1st Grade" r).1).2.1 := by
  rcases Nat.mod_two_eq_zero_or_one (r.next.next 0) with h2 | h2 <;>
    simp [genBody, intn, h2] at hop ⊢ <;>
    split_ifs <;> omega

/-- A 5th Grade division body has divisor in `[1,15]`, quotient in `[1,20]`
and a dividend that is exactly their product. -/
theorem genBody_fifth_division (r : Rng)
    (hop : ((genBody "5th Grade" r).1).2.2 = "division") :
    ∃ b ans : Int, 1 ≤ b ∧ b ≤ 15 ∧ 1 ≤ ans ∧ ans ≤ 20 ∧
      ((genBody "5th Grade" r).1).2.1 = ans ∧
      ((genBody "5th Grade" r).1).1 = qText (b * ans) "/" b := by
  have h4 : r 0 % 4 = 0 ∨ r 0 % 4 = 1 ∨ r 0 % 4 = 2 ∨ r 0 % 4 = 3 := by omega
  rcases h4 with h4 | h4 | h4 | h4
  · simp [genBody, intn, h4] at hop
  · simp [genBody, intn, h4] at hop
  · simp [genBody, intn, h4] at hop
  · unfold genBody intn
    rw [h4]
    exact ⟨((r.next 0 % 15 : Nat) : Int) + 1, ((r.next.next 0 % 20 : Nat) : Int) + 1,
      by omega, by omega, by omega, by omega, rfl, rfl⟩

/-- Bounds for an Algebra body: the answer is always in `[-50, 50]`, and in
`[-20, 20]` for the six templates where the answer is the unknown `x`. -/
theorem genBody_algebra_bounds (r : Rng) :
    (-50 ≤ ((genBody "Algebra" r).1).2.1 ∧ ((genBody "Algebra" r).1).2.1 ≤ 50) ∧
    (((genBody "Algebra" r).1).2.2 ≠ "algebra_division" →
      -20 ≤ ((genBody "Algebra" r).1).2.1 ∧ ((genBody "Algebra" r).1).2.1 ≤ 20) := by
  have h7 : r 0 % 7 = 0 ∨ r 0 % 7 = 1 ∨ r 0 % 7 = 2 ∨ r 0 % 7 = 3 ∨
      r 0 % 7 = 4 ∨ r 0 % 7 = 5 ∨ r 0 % 7 = 6 := by omega
  rcases h7 with h7 | h7 | h7 | h7 | h7 | h7 | h7 <;> unfold genBody intn <;> rw [h7]
  all_goals try
    exact ⟨⟨by show -50 ≤ ((r.next 0 % 41 : Nat) : Int) - 20; omega,
            by show ((r.next 0 % 41 : Nat) : Int) - 20 ≤ 50; omega⟩,
          fun _ => ⟨by show -20 ≤ ((r.next 0 % 41 : Nat) : Int) - 20; omega,
                    by show ((r.next 0 % 41 : Nat) : Int) - 20 ≤ 20; omega⟩⟩
  refine ⟨?_, fun hne => absurd rfl hne⟩
  show -50 ≤ (((r.next 0 % 5 : Nat) : Int) + 1) *
      (if ((r.next.next 0 % 21 : Nat) : Int) - 10 = 0 then 1
       else ((r.next.next 0 % 21 : Nat) : Int) - 10) ∧
    (((r.next 0 % 5 : Nat) : Int) + 1) *
      (if ((r.next.next 0 % 21 : Nat) : Int) - 10 = 0 then 1
       else ((r.next.next 0 % 21 : Nat) : Int) - 10) ≤ 50
  set a : Int := ((r.next 0 % 5 : Nat) : Int) with ha
  set b : Int := ((r.next.next 0 % 21 : Nat) : Int) with hb
  have hab : 0 ≤ a ∧ a ≤ 4 ∧ 0 ≤ b ∧ b ≤ 20 := by
    refine ⟨?_, ?_, ?_, ?_⟩ <;> simp [ha, hb] <;> omega
  obtain ⟨ha0, ha4, hb0, hb20⟩ := hab
  split_ifs with hm
  · constructor <;> nlinarith
  · have h1 : 0 ≤ (4 - a) * (20 - b) := mul_nonneg (by omega) (by omega)
    have h2 : 0 ≤ (4 - a) * b := mul_nonneg (by omega) hb0
    have h3 : 0 ≤ a * (20 - b) := mul_nonneg ha0 (by omega)
    have h4 : 0 ≤ a * b := mul_nonneg ha0 hb0
    constructor <;> nlinarith

/-- The session invariant behind claim C6: whenever the phase is `Menu` or
`TimeSelect` the used-question set and the answer history are empty (both
are cleared on every path back to the menu), and the duration-list cursor
stays within its four items. -/
def SessionInv (m : Model) : Prop :=
  ((m.state = .menu ∨ m.state = .timeSelect) → m.usedQuestions = ∅ ∧ m.answers = []) ∧
  m.timeListIndex ≤ 3

/-- The initial model satisfies the session invariant. -/
theorem sessionInv_init : SessionInv initialModel := by
  constructor <;> simp [initialModel]

/-- Every event handler preserves the session invariant. -/
theorem sessionInv_step {m m' : Model} {msg : Msg} {now : Int} {r : Rng} {fuel : Nat}
    (hm : SessionInv m) (h : update m msg now r fuel = some m') : SessionInv m' := by
  obtain ⟨hclr, hidx⟩ := hm
  cases hstate : m.state
  case menu =>
    rw [update_menu_eq m msg now r fuel hstate, Option.some_inj] at h
    obtain ⟨hu, ha⟩ := hclr (Or.inl hstate)
    subst h
    cases msg <;>
      simp_all [SessionInv, updateMenu, listNav, hstate]
  case timeSelect =>
    rw [update_timeSelect_eq m msg now r fuel hstate] at h
    obtain ⟨hu, ha⟩ := hclr (Or.inr hstate)
    cases msg <;>
      simp only [updateTimeSelect, listNav] at h
    case keyEnter =>
      rcases hg : generateQuestion fuel m.difficulty m.usedQuestions r with _ | ⟨q, used⟩ <;>
        rw [hg] at h
      · exact absurd h (by simp)
      · rw [Option.some_inj] at h
        subst h
        simp_all [SessionInv]
    all_goals (rw [Option.some_inj] at h; subst h; simp_all [SessionInv, timeItems]; try omega)
  case running =>
    rw [update_running_eq m msg now r fuel hstate] at h
    cases msg <;>
      simp only [updateRunning, textInputUpdate, listNav] at h
    case tick =>
      split_ifs at h <;> (rw [Option.some_inj] at h; subst h; simp_all [SessionInv])
    case pulseTick =>
      split_ifs at h <;> (rw [Option.some_inj] at h; subst h; simp_all [SessionInv])
    case flashDone =>
      rcases hg : generateQuestion fuel m.difficulty m.usedQuestions r with _ | ⟨q, used⟩ <;>
        rw [hg] at h
      · exact absurd h (by simp)
      · rw [Option.some_inj] at h
        subst h
        simp_all [SessionInv]
    case flashFade =>
      split_ifs at h <;> (rw [Option.some_inj] at h; subst h; simp_all [SessionInv])
    case keyEnter =>
      rcases hs : scanInt m.textInput.value with _ | v <;> rw [hs] at h <;>
        (rw [Option.some_inj] at h; subst h; simp_all [SessionInv]) <;>
        split_ifs <;> simp_all
    all_goals (rw [Option.some_inj] at h; subst h; simp_all [SessionInv])
  case results =>
    rw [update_results_eq m msg now r fuel hstate, Option.some_inj] at h
    subst h
    cases msg <;> simp_all [SessionInv, updateResults, hstate]

/-- Every reachable state satisfies the session invariant. -/
theorem reachable_sessionInv {m : Model} (h : Reachable m) : SessionInv m := by
  induction h with
  | init => exact sessionInv_init
  | step _ hupd ih => exact sessionInv_step ih hupd

/-! ### Claims -/

/-- C1: while `Running`, the Enter handler creates no `AnswerRecord` when the
submitted raw input does not scan as an integer (the whole step is a no-op on
the model), and when it does scan it appends exactly one record whose
`Correct` field is true iff the scanned value equals the current answer. -/
theorem running_enter_scoring (m : Model) (now : Int) (r : Rng) (fuel : Nat)
    (h : m.state = .running) :
    (scanInt m.textInput.value = none → update m .keyEnter now r fuel = some m) ∧
    (∀ v : Int, scanInt m.textInput.value = some v →
      ∃ m', update m .keyEnter now r fuel = some m' ∧
        m'.answers = m.answers ++
          [{ Question := m.currentQ, Correct := decide (v = m.currentQ.Answer),
             Duration := now - m.questionStart, UserInput := m.textInput.value }] ∧
        (decide (v = m.currentQ.Answer) = true ↔ v = m.currentQ.Answer)) := by
  rw [update_running_eq m .keyEnter now r fuel h]
  constructor
  · intro hs
    simp only [updateRunning, textInputUpdate]
    rw [hs]
  · intro v hs
    simp only [updateRunning, textInputUpdate]
    rw [hs]
    refine ⟨_, rfl, ?_, by simp⟩
    simp [apply_ite Model.answers]

/-- Witness for C1 at a concrete running model whose input reads "7". -/
theorem running_enter_scoring_witness :
    ∃ m', update mFlash .keyEnter 0 zeroRng 1 = some m' ∧
      m'.answers = mFlash.answers ++
        [{ Question := mFlash.currentQ, Correct := decide ((7 : Int) = mFlash.currentQ.Answer),
           Duration := 0 - mFlash.questionStart, UserInput := mFlash.textInput.value }] ∧
      (decide ((7 : Int) = mFlash.currentQ.Answer) = true ↔ (7 : Int) = mFlash.currentQ.Answer) :=
  (running_enter_scoring mFlash 0 zeroRng 1 rfl).2 7 rfl

/-- C2: the post-answer time adjustment (plus one second clamped to the
limit when correct, minus one second clamped to one second when incorrect)
keeps the remaining time inside `[1s, limit]`. -/
theorem adjustTime_bounds (correct : Bool) (remaining timeLimit : Int)
    (h1 : second ≤ remaining) (h2 : remaining ≤ timeLimit * second) :
    second ≤ adjustTime correct remaining timeLimit ∧
    adjustTime correct remaining timeLimit ≤ timeLimit * second := by
  simp only [adjustTime, second] at *
  split_ifs <;> constructor <;> omega

/-- Witness for C2: an incorrect answer at exactly one second remaining. -/
theorem adjustTime_bounds_witness :
    second ≤ adjustTime false second 30 ∧ adjustTime false second 30 ≤ 30 * second :=
  adjustTime_bounds false second 30 le_rfl (by norm_num [second])

/-- C3: a successful `generateQuestion` call returns an id absent from the
supplied used set before the call and registers it in the returned set. -/
theorem generateQuestion_unique_id (fuel : Nat) (difficulty : String)
    (used : Finset String) (r : Rng) (q : Question) (used' : Finset String)
    (h : generateQuestion fuel difficulty used r = some (q, used')) :
    q.UniqueID ∉ used ∧ q.UniqueID ∈ used' := by
  obtain ⟨h1, h2, -⟩ := generateQuestion_spec h
  exact ⟨h1, h2 ▸ Finset.mem_insert_self _ _⟩

/-- Witness for C3 on a concrete call with an empty used set. -/
theorem generateQuestion_unique_id_witness :
    q0.UniqueID ∉ (∅ : Finset String) ∧
    q0.UniqueID ∈ ({"1st Grade|0"} : Finset String) :=
  generateQuestion_unique_id 1 "1st Grade" ∅ zeroRng q0 {"1st Grade|0"} rfl

/-- C4 counterexample: the Algebra division template can answer 50, which
is outside the claimed range `[-20, 20]`. -/
theorem algebra_division_answer_outside_range :
    (generateQuestion 1 "Algebra" ∅ cexRng).map (fun p => p.1.Answer) = some 50 ∧
    ¬((-20 : Int) ≤ 50 ∧ (50 : Int) ≤ 20) :=
  ⟨rfl, by norm_num⟩

/-- C4 (amended): every Algebra answer lies in `[-50, 50]`; for the six
non-division templates, where the answer is the unknown `x`, it lies in
`[-20, 20]`.  The division template answer `n * m` with `n ∈ [1,5]` and
`m ∈ [-10,10]` only satisfies the wider bound. -/
theorem algebra_answer_bounds (fuel : Nat) (used : Finset String) (r : Rng)
    (q : Question) (used' : Finset String)
    (h : generateQuestion fuel "Algebra" used r = some (q, used')) :
    (-50 ≤ q.Answer ∧ q.Answer ≤ 50) ∧
    (q.OpType ≠ "algebra_division" → -20 ≤ q.Answer ∧ q.Answer ≤ 20) := by
  obtain ⟨-, -, r0, -, hans, hop⟩ := generateQuestion_spec h
  have hb := genBody_algebra_bounds r0
  rw [hans, hop] at hb
  exact hb

/-- Witness for C4 (amended) at the concrete division-template question. -/
theorem algebra_answer_bounds_witness :
    ((-50 ≤ qAlg.Answer ∧ qAlg.Answer ≤ 50) ∧
    (qAlg.OpType ≠ "algebra_division" → -20 ≤ qAlg.Answer ∧ qAlg.Answer ≤ 20)) :=
  algebra_answer_bounds 1 ∅ cexRng qAlg {"Algebra|0"} rfl

/-- C5 counterexample: a pulse event in the final ten seconds does more
than toggle the color override: it also forces `flashFadeSteps` from 3 to
1, so "every other field unchanged" fails. -/
theorem pulse_changes_fade_steps :
    mPulse.state = .running ∧ mPulse.timeRemaining ≤ 10 * second ∧
    mPulse.flashFadeSteps = 3 ∧
    (update mPulse .pulseTick 0 zeroRng 1).map Model.flashFadeSteps = some 1 :=
  ⟨rfl, by norm_num [mPulse, initialModel, second], rfl, rfl⟩

/-- C5 (amended): a pulse event while `Running` is a strict no-op when more
than ten seconds remain; at ten seconds or less its only effects are to set
`flashFadeSteps` to 1 and toggle `flashColorOverride` between the
bright-negative color and none, all other fields unchanged. -/
theorem pulse_running_effect (m : Model) (now : Int) (r : Rng) (fuel : Nat)
    (h : m.state = .running) :
    (10 * second < m.timeRemaining → update m .pulseTick now r fuel = some m) ∧
    (m.timeRemaining ≤ 10 * second →
      update m .pulseTick now r fuel =
        some { m with flashFadeSteps := 1,
                      flashColorOverride :=
                        if m.flashColorOverride = "" then "brightRed" else "" }) := by
  rw [update_running_eq m .pulseTick now r fuel h]
  constructor
  · intro hlt
    simp only [updateRunning]
    rw [if_neg (not_le.mpr hlt)]
  · intro hle
    simp only [updateRunning]
    rw [if_pos hle]

/-- Witness for C5 (amended) at the concrete low-time model. -/
theorem pulse_running_effect_witness :
    update mPulse .pulseTick 0 zeroRng 1 =
      some { mPulse with flashFadeSteps := 1,
                         flashColorOverride :=
                           if mPulse.flashColorOverride = "" then "brightRed" else "" } :=
  (pulse_running_effect mPulse 0 zeroRng 1 rfl).2
    (by norm_num [mPulse, initialModel, second])

/-- C6: from any reachable `TimeSelect` state, confirming a duration moves
the session to `Running` with the time limit taken from the selected item
(30/60/90/120 seconds), the remaining time equal to the full limit, an
empty answer history, and a used-question set holding exactly the id of the
freshly generated first question. -/
theorem timeSelect_enter_starts_run (m : Model) (now : Int) (r : Rng) (fuel : Nat)
    (m' : Model) (hre : Reachable m) (hstate : m.state = .timeSelect)
    (hupd : update m .keyEnter now r fuel = some m') :
    m'.state = .running ∧
    m'.timeLimit = [(30 : Int), 60, 90, 120].getD m.timeListIndex 0 ∧
    m'.timeRemaining = m'.timeLimit * second ∧
    m'.answers = [] ∧
    m'.usedQuestions = {m'.currentQ.UniqueID} := by
  obtain ⟨hclr, hidx⟩ := reachable_sessionInv hre
  obtain ⟨hu, ha⟩ := hclr (Or.inr hstate)
  rw [update_timeSelect_eq m .keyEnter now r fuel hstate] at hupd
  simp only [updateTimeSelect, listNav] at hupd
  rcases hg : generateQuestion fuel m.difficulty m.usedQuestions r with _ | ⟨q, used⟩ <;>
    rw [hg] at hupd
  · exact absurd hupd (by simp)
  · rw [Option.some_inj] at hupd
    obtain ⟨hfresh, hins, -⟩ := generateQuestion_spec hg
    subst hupd
    interval_cases hi : m.timeListIndex <;>
      simp_all [timeItems, hu, hins]

/-- Witness for C6: the concrete two-step run from the initial model
(confirm "1st Grade", then confirm "30s"). -/
theorem timeSelect_enter_starts_run_witness :
    mRun.state = .running ∧
    mRun.timeLimit = [(30 : Int), 60, 90, 120].getD mTS.timeListIndex 0 ∧
    mRun.timeRemaining = mRun.timeLimit * second ∧
    mRun.answers = [] ∧
    mRun.usedQuestions = {mRun.currentQ.UniqueID} :=
  timeSelect_enter_starts_run mTS 0 zeroRng 1 mRun
    (Reachable.step Reachable.init (rfl : update initialModel .keyEnter 0 zeroRng 1 = some mTS))
    rfl rfl

/-- C7: a 5th Grade question with the division operator has divisor in
`[1,15]`, answer (the quotient) in `[1,20]`, and its displayed dividend is
exactly divisor times quotient. -/
theorem fifthGrade_division_exact (fuel : Nat) (used : Finset String) (r : Rng)
    (q : Question) (used' : Finset String)
    (h : generateQuestion fuel "5th Grade" used r = some (q, used'))
    (hop : q.OpType = "division") :
    ∃ b ans : Int, 1 ≤ b ∧ b ≤ 15 ∧ 1 ≤ ans ∧ ans ≤ 20 ∧ q.Answer = ans ∧
      q.Text = qText (b * ans) "/" b := by
  obtain ⟨-, -, r0, htext, hans, hopeq⟩ := generateQuestion_spec h
  obtain ⟨b, ans, h1, h2, h3, h4, h5, h6⟩ := genBody_fifth_division r0 (by rw [hopeq, hop])
  exact ⟨b, ans, h1, h2, h3, h4, by rw [← hans, h5], by rw [← htext, h6]⟩

/-- Witness for C7 at a concrete division question. -/
theorem fifthGrade_division_exact_witness :
    ∃ b ans : Int, 1 ≤ b ∧ b ≤ 15 ∧ 1 ≤ ans ∧ ans ≤ 20 ∧ qDiv.Answer = ans ∧
      qDiv.Text = qText (b * ans) "/" b :=
  fifthGrade_division_exact 1 ∅ divRng qDiv {"5th Grade|0"} rfl rfl

/-- C8: a 1st Grade question with the subtraction operator never has a
negative answer (the operands are swapped before subtracting). -/
theorem firstGrade_subtraction_nonneg (fuel : Nat) (used : Finset String) (r : Rng)
    (q : Question) (used' : Finset String)
    (h : generateQuestion fuel "1st Grade" used r = some (q, used'))
    (hop : q.OpType = "subtraction") :
    0 ≤ q.Answer := by
  obtain ⟨-, -, r0, -, hans, hopeq⟩ := generateQuestion_spec h
  have hb := genBody_first_sub_nonneg r0 (by rw [hopeq, hop])
  rw [hans] at hb
  exact hb

/-- Witness for C8 at a concrete subtraction question. -/
theorem firstGrade_subtraction_nonneg_witness : 0 ≤ qSub.Answer :=
  firstGrade_subtraction_nonneg 1 ∅ subRng qSub {"1st Grade|0"} rfl rfl

/-- C9: with positive remaining time, total time and width, and the bar
adjust in `{-1, 0, 1}`, the clamped filled-column count lies in
`[0, width]` and the rendered bar row holds exactly `width` cells. -/
theorem renderCountdownBar_bounds (t total width adjust : Int) (ov fuse : String)
    (ht : 0 < t) (htot : 0 < total) (hw : 0 < width)
    (hadj : adjust = -1 ∨ adjust = 0 ∨ adjust = 1) :
    0 ≤ filledColumns t total width adjust ∧
    filledColumns t total width adjust ≤ width ∧
    ∃ color cells, renderCountdownBar t total width adjust ov fuse = .bar color cells ∧
      cells.length = width.toNat := by
  have hb : 0 ≤ filledColumns t total width adjust ∧
      filledColumns t total width adjust ≤ width := by
    simp only [filledColumns]
    generalize t * width / total + adjust = x
    split_ifs <;> omega
  refine ⟨hb.1, hb.2, barColorName t total ov,
    (List.range width.toNat).map (fun (i : Nat) =>
      if (i : Int) = filledColumns t total width adjust - 1 then .fuse fuse
      else if (i : Int) < filledColumns t total width adjust then .block
      else .space), ?_, ?_⟩
  · unfold renderCountdownBar
    rw [if_neg (not_le.mpr ht)]
  · rw [List.length_map, List.length_range]

/-- Witness for C9 at a concrete call. -/
theorem renderCountdownBar_bounds_witness :
    0 ≤ filledColumns 10 30 30 1 ∧
    filledColumns 10 30 30 1 ≤ 30 ∧
    ∃ color cells, renderCountdownBar 10 30 30 1 "" "*" = .bar color cells ∧
      cells.length = (30 : Int).toNat :=
  renderCountdownBar_bounds 10 30 30 1 "" "*" (by norm_num) (by norm_num) (by norm_num)
    (Or.inr (Or.inr rfl))

/-- C10: while `Running` mid-flash (answer already scored, tick suspended,
input blurred but not yet reset), another Enter whose retained text still
scans as an integer appends a further record for the same unchanged current
question and applies the time adjustment again: nothing guards on
`flashActive` or `suspendTick`. -/
theorem running_enter_during_flash (m : Model) (now : Int) (r : Rng) (fuel : Nat)
    (v : Int) (h : m.state = .running) (hflash : m.flashActive = true)
    (hsusp : m.suspendTick = true) (hblur : m.textInput.focused = false)
    (hscan : scanInt m.textInput.value = some v) :
    ∃ m', update m .keyEnter now r fuel = some m' ∧
      m'.answers = m.answers ++
        [{ Question := m.currentQ, Correct := decide (v = m.currentQ.Answer),
           Duration := now - m.questionStart, UserInput := m.textInput.value }] ∧
      m'.currentQ = m.currentQ ∧
      m'.timeRemaining =
        adjustTime (decide (v = m.currentQ.Answer)) m.timeRemaining m.timeLimit ∧
      m'.flashActive = true ∧ m'.suspendTick = true := by
  rw [update_running_eq m .keyEnter now r fuel h]
  simp only [updateRunning, textInputUpdate]
  rw [hscan]
  refine ⟨_, rfl, ?_, ?_, ?_, rfl, rfl⟩
  · simp [apply_ite Model.answers]
  · simp [apply_ite Model.currentQ]
  · by_cases hc : decide (v = m.currentQ.Answer) = true <;>
      simp [apply_ite Model.timeRemaining, hc]

/-- Witness for C10 at the concrete mid-flash model with retained text "7". -/
theorem running_enter_during_flash_witness :
    ∃ m', update mFlash .keyEnter 0 zeroRng 1 = some m' ∧
      m'.answers = mFlash.answers ++
        [{ Question := mFlash.currentQ, Correct := decide ((7 : Int) = mFlash.currentQ.Answer),
           Duration := 0 - mFlash.questionStart, UserInput := mFlash.textInput.value }] ∧
      m'.currentQ = mFlash.currentQ ∧
      m'.timeRemaining =
        adjustTime (decide ((7 : Int) = mFlash.currentQ.Answer)) mFlash.timeRemaining
          mFlash.timeLimit ∧
      m'.flashActive = true ∧ m'.suspendTick = true :=
  running_enter_during_flash mFlash 0 zeroRng 1 7 rfl rfl rfl rfl rfl

end QuizGame
